import Mathlib

/-!
Verification of the xmlgenerator schema→instance pipeline.

Shallow embedding of the Rust sources under `src/xml_generator/src/`:
`error.rs`, `generate.rs`, `element_generator.rs`, `type_generator.rs`,
`group_generator.rs`, `attribute_generator.rs`, `find_root.rs`,
`fetch_types.rs`.  The external collaborators (the `fake`/`rand`/`rand_regex`
value samplers and the `xml_builder` element tree) are modelled through the
interfaces the specification describes: random sampling becomes an explicit
environment of deterministic functions plus an ambient generator-state
parameter, and the XML element tree becomes a pure datatype whose
`addText`/`addChild` operations enforce the builder's text/children mutual
exclusion.  Rust `panic!`/`unimplemented!` in the collectors is modelled as
`Option.none`; potential non-termination of the mutually recursive tree
builder is modelled with a fuel parameter (fuel exhaustion yields a
distinguished error no source path produces).
-/

namespace XmlGenerator

/-- Error enum from `error.rs` (`XMLGeneratorError`). -/
inductive XMLGeneratorError where
  | DataTypeError (msg : String)
  | XSDParserError (msg : String)
  | DataTypesFormatError (msg : String)
  | XMLBuilderError (msg : String)
deriving DecidableEq

/-- Attribute use policy, from `xsd_parser`'s `AttributeUseType`. -/
inductive AttributeUseType where
  | Required
  | Optional
  | Prohibited
deriving DecidableEq

/-- `AttributeGenerator` struct from `attribute_generator.rs`. -/
structure AttributeGenerator where
  name : String
  attribute_type : AttributeUseType
  type_name : String
deriving DecidableEq

/-- `AttributeGenerator::new` from `attribute_generator.rs`. -/
def AttributeGenerator.new : AttributeGenerator :=
  { name := "", attribute_type := .Required, type_name := "" }

mutual
/-- `ElementGenerator` struct from `element_generator.rs`: name, inline
contents, named type, reference, cardinality. -/
inductive ElementGenerator : Type where
  | mk (name : Option String) (contents : List TypeGenerator)
       (type_info : Option String) (reference : Option String)
       (min : Nat) (max : Option Nat) : ElementGenerator

/-- `TypeGenerator` struct from `type_generator.rs`. -/
inductive TypeGenerator : Type where
  | mk (name : String) (type_info : List String)
       (elements : List ElementGenerator) (groups : List GroupGenerator)
       (attributes : List AttributeGenerator)
       (min : Nat) (max : Option Nat) : TypeGenerator

/-- `GroupGenerator` struct from `group_generator.rs`. -/
inductive GroupGenerator : Type where
  | mk (elements : List ElementGenerator) (min : Nat) (max : Option Nat) :
      GroupGenerator
end

def ElementGenerator.name : ElementGenerator → Option String
  | .mk n _ _ _ _ _ => n

def ElementGenerator.contents : ElementGenerator → List TypeGenerator
  | .mk _ c _ _ _ _ => c

def ElementGenerator.type_info : ElementGenerator → Option String
  | .mk _ _ t _ _ _ => t

def ElementGenerator.reference : ElementGenerator → Option String
  | .mk _ _ _ r _ _ => r

def ElementGenerator.min : ElementGenerator → Nat
  | .mk _ _ _ _ mn _ => mn

def ElementGenerator.max : ElementGenerator → Option Nat
  | .mk _ _ _ _ _ mx => mx

/-- `ElementGenerator::new` from `element_generator.rs`. -/
def ElementGenerator.new : ElementGenerator :=
  .mk none [] none none 1 none

def TypeGenerator.name : TypeGenerator → String
  | .mk n _ _ _ _ _ _ => n

def TypeGenerator.type_info : TypeGenerator → List String
  | .mk _ t _ _ _ _ _ => t

def TypeGenerator.elements : TypeGenerator → List ElementGenerator
  | .mk _ _ e _ _ _ _ => e

def TypeGenerator.groups : TypeGenerator → List GroupGenerator
  | .mk _ _ _ g _ _ _ => g

def TypeGenerator.attributes : TypeGenerator → List AttributeGenerator
  | .mk _ _ _ _ a _ _ => a

def TypeGenerator.min : TypeGenerator → Nat
  | .mk _ _ _ _ _ mn _ => mn

def TypeGenerator.max : TypeGenerator → Option Nat
  | .mk _ _ _ _ _ _ mx => mx

/-- `TypeGenerator::new` from `type_generator.rs`. -/
def TypeGenerator.new : TypeGenerator :=
  .mk "" [] [] [] [] 1 none

def GroupGenerator.elements : GroupGenerator → List ElementGenerator
  | .mk e _ _ => e

def GroupGenerator.min : GroupGenerator → Nat
  | .mk _ mn _ => mn

def GroupGenerator.max : GroupGenerator → Option Nat
  | .mk _ _ mx => mx

/-- `ElementGenerator::get_name` from `element_generator.rs`: the name if
present, else the reference, else a `DataTypesFormatError`. -/
def ElementGenerator.get_name (self : ElementGenerator) :
    Except XMLGeneratorError String :=
  match self.name with
  | some n => .ok n
  | none =>
    match self.reference with
    | some r => .ok r
    | none =>
      .error (.DataTypesFormatError
        "Element does not have a name or a reference")

/-! ### XML element tree (downstream `xml_builder` interface)

The output tree the core hands to the writer: tag name, ordered attribute
list, optional text, ordered children; text and child elements are mutually
exclusive, and `add_text`/`add_child` fail on an element that already holds
the other kind of content. -/

/-- Output tree node passed to the XML writer (`xml_builder::XMLElement`). -/
inductive XMLElement : Type where
  | mk (name : String) (attributes : List (String × String))
       (text : Option String) (children : List XMLElement) : XMLElement

def XMLElement.name : XMLElement → String
  | .mk n _ _ _ => n

def XMLElement.attributes : XMLElement → List (String × String)
  | .mk _ a _ _ => a

def XMLElement.text : XMLElement → Option String
  | .mk _ _ t _ => t

def XMLElement.children : XMLElement → List XMLElement
  | .mk _ _ _ c => c

/-- `XMLElement::new`: fresh node with no attributes, text or children. -/
def XMLElement.new (n : String) : XMLElement := .mk n [] none []

/-- `XMLElement::add_text`: succeeds only on a node with empty content. -/
def XMLElement.addText : XMLElement → String → Except String XMLElement
  | .mk n a none [], t => .ok (.mk n a (some t) [])
  | _, _ => .error "Cannot insert both text and elements into an element"

/-- `XMLElement::add_child`: fails on a node already holding text. -/
def XMLElement.addChild : XMLElement → XMLElement → Except String XMLElement
  | .mk n a none cs, c => .ok (.mk n a none (cs ++ [c]))
  | _, _ => .error "Cannot insert both text and elements into an element"

/-- `XMLElement::add_attribute`: appends a key/value pair (infallible). -/
def XMLElement.addAttribute : XMLElement → String → String → XMLElement
  | .mk n a t cs, k, v => .mk n (a ++ [(k, v)]) t cs

/-! ### Value generator (`generate.rs` lines 27–76)

`make_fake` draws from the process-wide `fake`/`rand` source; we model the
source as an environment of deterministic functions together with an ambient
state `g : Nat` standing for the state of the process-wide generator at the
moment of the call.  `generate_regex` builds its own `XorShiftRng` from the
all-zero 16-byte seed on every call, so it consults `regexSample` at
`zeroSeed` and ignores the ambient state. -/

/-- Environment of external pseudo-random samplers (the `fake`, `rand` and
`rand_regex` crates).  `fake ty g` is the value `Faker.fake::<T>()` renders
for the scalar type named `ty` when the process-wide source is in state `g`;
`regexSample seed pat` is the first sample `rand_regex` draws for pattern
`pat` from an `XorShiftRng` seeded with `seed`. -/
structure RandEnv where
  fake : String → Nat → String
  regexSample : List Nat → String → String

/-- The all-zero 16-byte seed `[0; 16]` used in `generate_regex`. -/
def zeroSeed : List Nat := List.replicate 16 0

/-- ASCII lowercasing, standing for Rust `str::to_lowercase` (a
kernel-reducible counterpart of `String.toLower`). -/
def toLowerStr (s : String) : String := String.mk (s.data.map Char.toLower)

/-- `make_fake::<T>()` from `generate.rs`: always yields a value. -/
def make_fake (env : RandEnv) (g : Nat) (ty : String) : Option String :=
  some (env.fake ty g)

/-- `generate_type` from `generate.rs`: primitive generation by base name. -/
def generate_type (env : RandEnv) (g : Nat) (type_name : String) :
    Option String :=
  if type_name = "boolean" then make_fake env g "boolean"
  else if type_name = "decimal" then make_fake env g "decimal"
  else if type_name = "double" then make_fake env g "double"
  else if type_name = "integer" then make_fake env g "integer"
  else if type_name = "positiveInteger" then make_fake env g "positiveInteger"
  else if type_name = "string" then make_fake env g "string"
  else none

/-- `generate_regex` from `generate.rs`: only a (case-insensitive) `string`
base is sampled; the local rng is freshly seeded with `zeroSeed`, and
`take(1)` of the infinite sample iterator is the singleton of the first
sample. -/
def generate_regex (env : RandEnv) (_g : Nat) (type_name pattern : String) :
    Option String :=
  if toLowerStr type_name ≠ "string" then none
  else
    let samples : List String := [env.regexSample zeroSeed pattern]
    if samples.isEmpty then none else samples.getLast?

/-- `generate` from `generate.rs`: dispatch on the facet-chain length. -/
def generate (env : RandEnv) (g : Nat) (type_name : List String) :
    Option String :=
  match type_name with
  | [name] => generate_type env g name
  | [name, pattern] => generate_regex env g name pattern
  | _ => none

/-! ### Attribute emission (`attribute_generator.rs`) -/

/-- `generate_attribute_from_type` from `attribute_generator.rs` lines 7–46:
validate the attribute-only projection of a named type, then draw a value
from its `type_info` chain. -/
def generate_attribute_from_type (env : RandEnv) (g : Nat) (el : XMLElement)
    (tg : TypeGenerator) (name : String) :
    Except XMLGeneratorError XMLElement :=
  if ¬ tg.elements.isEmpty then
    .error (.DataTypesFormatError "Attributes can contain complex elements")
  else if ¬ tg.groups.isEmpty then
    .error (.DataTypesFormatError "Attributes cannot include groups")
  else if ¬ tg.attributes.isEmpty then
    .error (.DataTypesFormatError "Attributes cannot have their own attributes")
  else if tg.type_info.isEmpty then
    .error (.DataTypeError "No type dat for attribute")
  else
    match generate env g tg.type_info with
    | some v => .ok (el.addAttribute name v)
    | none => .error (.DataTypeError "Data type not found")

/-- Scan of `data_types` inside `AttributeGenerator::generate` lines 93–97:
every table entry whose name matches the attribute's type name is run through
`generate_attribute_from_type` (the loop does not return early), and the loop
falls through to `Ok` when done. -/
def attrTypeScan (env : RandEnv) (g : Nat) (self : AttributeGenerator)
    (el : XMLElement) : List TypeGenerator →
    Except XMLGeneratorError XMLElement
  | [] => .ok el
  | t :: rest =>
    if t.name = self.type_name then
      match generate_attribute_from_type env g el t self.name with
      | .error e => .error e
      | .ok el' => attrTypeScan env g self el' rest
    else attrTypeScan env g self el rest

/-- `AttributeGenerator::generate` from `attribute_generator.rs` lines 63–100. -/
def AttributeGenerator.generate (env : RandEnv) (g : Nat)
    (self : AttributeGenerator) (el : XMLElement)
    (data_types : List TypeGenerator) :
    Except XMLGeneratorError XMLElement :=
  if self.name = "" then
    .error (.DataTypesFormatError "Attribute Name is empty")
  else if self.type_name = "" then
    .error (.DataTypesFormatError "Attribute type name is empty")
  else if self.attribute_type = .Prohibited then .ok el
  else
    match XmlGenerator.generate env g [self.type_name] with
    | some v => .ok (el.addAttribute self.name v)
    | none => attrTypeScan env g self el data_types

/-- Attribute loop at the tail of `TypeGenerator::generate` lines 77–79. -/
def attrLoop (env : RandEnv) (g : Nat) :
    List AttributeGenerator → XMLElement → List TypeGenerator →
    Except XMLGeneratorError XMLElement
  | [], el, _ => .ok el
  | a :: rest, el, data_types =>
    match AttributeGenerator.generate env g a el data_types with
    | .error e => .error e
    | .ok el' => attrLoop env g rest el' data_types

/-! ### Tree builder (`element_generator.rs`, `type_generator.rs`,
`generate.rs` lines 10–25 and 78–103)

The Rust functions recurse through the shared `data_types`/`elements`
tables, so the recursion is not structural; `fuel` bounds the recursion
depth, and running out of fuel produces a distinguished error
(`XSDParserError "recursion fuel exhausted"`) that no source code path
returns. -/

/-- Fuel-exhaustion marker (models the stack overflow a cyclic type graph
would cause in the source; no source path produces this error value). -/
def outOfFuel : XMLGeneratorError := .XSDParserError "recursion fuel exhausted"

/-- Reference-resolution scan inside `generate_reference` (`generate.rs`
lines 15–20): first element whose `get_name()` equals the reference; a
`get_name` failure aborts the scan with that error. -/
def findReference (reference : String) :
    List ElementGenerator → Except XMLGeneratorError (Option ElementGenerator)
  | [] => .ok none
  | e :: rest =>
    match e.get_name with
    | .error err => .error err
    | .ok nm => if nm = reference then .ok (some e) else findReference reference rest

mutual
/-- `ElementGenerator::generate` from `element_generator.rs` lines 41–81. -/
def ElementGenerator.generate :
    Nat → RandEnv → Nat → ElementGenerator → List TypeGenerator →
    List ElementGenerator → Except XMLGeneratorError XMLElement
  | 0, _, _, _, _, _ => .error outOfFuel
  | fuel + 1, env, g, self, data_types, elements =>
    match self.reference with
    | some reference =>
      if self.type_info.isSome then
        .error (.DataTypesFormatError "Element is a reference and a type")
      else if ¬ self.contents.isEmpty then
        .error (.DataTypesFormatError
          "Element references another element an contains content")
      else generate_reference fuel env g reference data_types elements
    | none =>
      match self.get_name with
      | .error e => .error e
      | .ok name =>
        let root_element := XMLElement.new name
        match self.type_info with
        | some type_info =>
          if ¬ self.contents.isEmpty then
            .error (.DataTypesFormatError
              "Data has a type and contains type elements")
          else generate_type_output fuel env g root_element type_info
            data_types elements
        | none =>
          contentsLoop fuel env g self.contents root_element data_types elements
termination_by structural fuel _ _ _ _ _ => fuel

/-- `generate_reference` from `generate.rs` lines 10–25. -/
def generate_reference :
    Nat → RandEnv → Nat → String → List TypeGenerator →
    List ElementGenerator → Except XMLGeneratorError XMLElement
  | 0, _, _, _, _, _ => .error outOfFuel
  | fuel + 1, env, g, reference, data_types, elements =>
    match findReference reference elements with
    | .error e => .error e
    | .ok (some e) => ElementGenerator.generate fuel env g e data_types elements
    | .ok none => .error (.XMLBuilderError "Reference not found")
termination_by structural fuel _ _ _ _ _ => fuel

/-- `generate_type_output` from `generate.rs` lines 78–103: primitive
generator first, then the type table, else `DataTypeError`. -/
def generate_type_output :
    Nat → RandEnv → Nat → XMLElement → String → List TypeGenerator →
    List ElementGenerator → Except XMLGeneratorError XMLElement
  | 0, _, _, _, _, _, _ => .error outOfFuel
  | fuel + 1, env, g, xml_element, type_name, data_types, elements =>
    match generate_type env g type_name with
    | some output =>
      match xml_element.addText output with
      | .ok el => .ok el
      | .error err => .error (.XMLBuilderError err)
    | none =>
      match data_types.find? (fun t => t.name = type_name) with
      | some data_type =>
        TypeGenerator.generate fuel env g data_type xml_element
          data_types elements
      | none =>
        .error (.DataTypeError ("Cannot find data type: " ++ type_name))
termination_by structural fuel _ _ _ _ _ _ => fuel

/-- `TypeGenerator::generate` from `type_generator.rs` lines 20–82: the
simple-type block (text from the `type_info` chain) falls through to the
element, group and attribute loops. -/
def TypeGenerator.generate :
    Nat → RandEnv → Nat → TypeGenerator → XMLElement → List TypeGenerator →
    List ElementGenerator → Except XMLGeneratorError XMLElement
  | 0, _, _, _, _, _, _ => .error outOfFuel
  | fuel + 1, env, g, self, xml_element, data_types, elements =>
    let step1 : Except XMLGeneratorError XMLElement :=
      if ¬ self.type_info.isEmpty then
        if ¬ self.elements.isEmpty then
          .error (.DataTypesFormatError
            "Type includes type information and elements")
        else if ¬ self.groups.isEmpty then
          .error (.DataTypesFormatError
            "Type includes type information and groups")
        else
          match XmlGenerator.generate env g self.type_info with
          | none => .error (.DataTypeError "No output generated")
          | some value =>
            match xml_element.addText value with
            | .ok el => .ok el
            | .error err => .error (.XMLBuilderError err)
      else .ok xml_element
    match step1 with
    | .error e => .error e
    | .ok el1 =>
      match elemsLoop fuel env g self.elements el1 data_types elements with
      | .error e => .error e
      | .ok el2 =>
        match groupsLoop fuel env g self.groups el2 data_types elements with
        | .error e => .error e
        | .ok el3 => attrLoop env g self.attributes el3 data_types
termination_by structural fuel _ _ _ _ _ _ => fuel

/-- Child-element loop of `TypeGenerator::generate` lines 53–62. -/
def elemsLoop :
    Nat → RandEnv → Nat → List ElementGenerator → XMLElement →
    List TypeGenerator → List ElementGenerator →
    Except XMLGeneratorError XMLElement
  | _, _, _, [], el, _, _ => .ok el
  | 0, _, _, _ :: _, _, _, _ => .error outOfFuel
  | fuel + 1, env, g, e :: rest, el, data_types, elements =>
    match ElementGenerator.generate fuel env g e data_types elements with
    | .error err => .error err
    | .ok child =>
      match el.addChild child with
      | .error _ => .error (.XMLBuilderError "Unable to add child to element")
      | .ok el' => elemsLoop fuel env g rest el' data_types elements
termination_by structural fuel _ _ _ _ _ _ => fuel

/-- Group loop of `TypeGenerator::generate` lines 64–75. -/
def groupsLoop :
    Nat → RandEnv → Nat → List GroupGenerator → XMLElement →
    List TypeGenerator → List ElementGenerator →
    Except XMLGeneratorError XMLElement
  | _, _, _, [], el, _, _ => .ok el
  | 0, _, _, _ :: _, _, _, _ => .error outOfFuel
  | fuel + 1, env, g, grp :: rest, el, data_types, elements =>
    match groupElemsLoop fuel env g grp.elements el data_types elements with
    | .error e => .error e
    | .ok el' => groupsLoop fuel env g rest el' data_types elements
termination_by structural fuel _ _ _ _ _ _ => fuel

/-- Inner per-group element loop of `TypeGenerator::generate` lines 65–74. -/
def groupElemsLoop :
    Nat → RandEnv → Nat → List ElementGenerator → XMLElement →
    List TypeGenerator → List ElementGenerator →
    Except XMLGeneratorError XMLElement
  | _, _, _, [], el, _, _ => .ok el
  | 0, _, _, _ :: _, _, _, _ => .error outOfFuel
  | fuel + 1, env, g, e :: rest, el, data_types, elements =>
    match ElementGenerator.generate fuel env g e data_types elements with
    | .error err => .error err
    | .ok child =>
      match el.addChild child with
      | .error _ =>
        .error (.XMLBuilderError "Unable to add group child to element")
      | .ok el' => groupElemsLoop fuel env g rest el' data_types elements
termination_by structural fuel _ _ _ _ _ _ => fuel

/-- Inline-contents loop of `ElementGenerator::generate` lines 75–77. -/
def contentsLoop :
    Nat → RandEnv → Nat → List TypeGenerator → XMLElement →
    List TypeGenerator → List ElementGenerator →
    Except XMLGeneratorError XMLElement
  | _, _, _, [], el, _, _ => .ok el
  | 0, _, _, _ :: _, _, _, _ => .error outOfFuel
  | fuel + 1, env, g, c :: rest, el, data_types, elements =>
    match TypeGenerator.generate fuel env g c el data_types elements with
    | .error e => .error e
    | .ok el' => contentsLoop fuel env g rest el' data_types elements
termination_by structural fuel _ _ _ _ _ _ => fuel
end

/-! ### Structural equality used by the root selector

`find_root.rs` compares elements through the hand-written `PartialEq`
implementations: `ElementGenerator` equality checks `name`, `type_info` and
`contents` (ignoring `reference`, `min`, `max`); `TypeGenerator` equality
checks all fields; `GroupGenerator` equality checks `elements`, `min`,
`max`; `AttributeGenerator` equality checks `name`, `type_name` and
`attribute_type`. -/

/-- `PartialEq for AttributeGenerator` from `attribute_generator.rs`. -/
def eqAG (a b : AttributeGenerator) : Bool :=
  a.name = b.name ∧ a.type_name = b.type_name ∧
    a.attribute_type = b.attribute_type

def eqAGList : List AttributeGenerator → List AttributeGenerator → Bool
  | [], [] => true
  | a :: as_, b :: bs => eqAG a b && eqAGList as_ bs
  | _, _ => false

mutual
/-- `PartialEq for ElementGenerator` from `element_generator.rs`: compares
`name`, `type_info` and `contents` only. -/
def eqEG : ElementGenerator → ElementGenerator → Bool
  | .mk n₁ c₁ t₁ _ _ _, .mk n₂ c₂ t₂ _ _ _ =>
    n₁ = n₂ && t₁ = t₂ && c₁.length = c₂.length && eqTGList c₁ c₂
termination_by structural a _ => a

def eqEGList : List ElementGenerator → List ElementGenerator → Bool
  | [], [] => true
  | a :: as_, b :: bs => eqEG a b && eqEGList as_ bs
  | _, _ => false
termination_by structural a _ => a

/-- `PartialEq for TypeGenerator` from `type_generator.rs`: compares every
field. -/
def eqTG : TypeGenerator → TypeGenerator → Bool
  | .mk n₁ ti₁ e₁ g₁ a₁ mn₁ mx₁, .mk n₂ ti₂ e₂ g₂ a₂ mn₂ mx₂ =>
    n₁ = n₂ && ti₁ = ti₂ && eqEGList e₁ e₂ && eqGGList g₁ g₂ &&
      eqAGList a₁ a₂ && mn₁ = mn₂ && mx₁ = mx₂
termination_by structural a _ => a

def eqTGList : List TypeGenerator → List TypeGenerator → Bool
  | [], [] => true
  | a :: as_, b :: bs => eqTG a b && eqTGList as_ bs
  | _, _ => false
termination_by structural a _ => a

/-- `PartialEq for GroupGenerator` from `group_generator.rs`. -/
def eqGG : GroupGenerator → GroupGenerator → Bool
  | .mk e₁ mn₁ mx₁, .mk e₂ mn₂ mx₂ =>
    eqEGList e₁ e₂ && mn₁ = mn₂ && mx₁ = mx₂
termination_by structural a _ => a

def eqGGList : List GroupGenerator → List GroupGenerator → Bool
  | [], [] => true
  | a :: as_, b :: bs => eqGG a b && eqGGList as_ bs
  | _, _ => false
termination_by structural a _ => a
end

/-- `Vec::contains(&generator)` on a list of generators: some member is
`PartialEq`-equal to the probe (member on the left, probe on the right, as
in `PartialEq::eq(self, other)`). -/
def elemMem (g : ElementGenerator) (l : List ElementGenerator) : Bool :=
  l.any (fun d => eqEG d g)

/-! ### Root selector (`find_root.rs`) -/

/-- Name-collection loop (`element.get_name()?` pushed in order); the first
failure propagates. -/
def getNamesList : List ElementGenerator →
    Except XMLGeneratorError (List String)
  | [] => .ok []
  | e :: rest =>
    match e.get_name with
    | .error err => .error err
    | .ok nm =>
      match getNamesList rest with
      | .error err => .error err
      | .ok nms => .ok (nm :: nms)

/-- Group loop of `get_content_list` (`find_root.rs` lines 12–17). -/
def groupNamesList : List GroupGenerator →
    Except XMLGeneratorError (List String)
  | [] => .ok []
  | grp :: rest =>
    match getNamesList grp.elements with
    | .error err => .error err
    | .ok ns =>
      match groupNamesList rest with
      | .error err => .error err
      | .ok rest' => .ok (ns ++ rest')

/-- `get_content_list` from `find_root.rs` lines 5–20: `get_name()` of every
direct element of an inline content type and of every element inside its
groups, in that order; a `get_name` failure propagates. -/
def get_content_list (generator : TypeGenerator) :
    Except XMLGeneratorError (List String) :=
  match getNamesList generator.elements with
  | .error e => .error e
  | .ok direct =>
    match groupNamesList generator.groups with
    | .error e => .error e
    | .ok grouped => .ok (direct ++ grouped)

/-- Content loop of `find_root_element` lines 60–65. -/
def contentListsOf : List TypeGenerator →
    Except XMLGeneratorError (List String)
  | [] => .ok []
  | c :: rest =>
    match get_content_list c with
    | .error e => .error e
    | .ok l =>
      match contentListsOf rest with
      | .error e => .error e
      | .ok rest' => .ok (l ++ rest')

/-- Per-generator contribution to `all_fields` in `find_root_element`
lines 48–66: the reference (if any) followed by the content-list names of
every inline content type. -/
def generatorFields (generator : ElementGenerator) :
    Except XMLGeneratorError (List String) :=
  match contentListsOf generator.contents with
  | .error e => .error e
  | .ok contentLists =>
    .ok ((match generator.reference with
          | some r => [r]
          | none => []) ++ contentLists)

/-- The `all_fields` accumulator of `find_root_element`. -/
def allFields : List ElementGenerator →
    Except XMLGeneratorError (List String)
  | [] => .ok []
  | gen :: rest =>
    match generatorFields gen with
    | .error e => .error e
    | .ok fs =>
      match allFields rest with
      | .error e => .error e
      | .ok rest' => .ok (fs ++ rest')

/-- The `all_types` accumulator of `find_root_element` lines 53–58: every
non-empty `type_info` string.  It is collected but never consulted by the
rest of the function. -/
def allTypes (generators : List ElementGenerator) : List String :=
  generators.filterMap (fun g =>
    match g.type_info with
    | some t => if 0 < t.length then some t else none
    | none => none)

/-- `get_field_struct` from `find_root.rs` lines 22–35: first generator
whose (present) name equals the field. -/
def get_field_struct (generators : List ElementGenerator) (field : String) :
    Option ElementGenerator :=
  generators.find? (fun g =>
    match g.name with
    | some n => n = field
    | none => false)

/-- The `dependent_elements` accumulator of `find_root_element` lines 68–74. -/
def dependentElements (generators : List ElementGenerator)
    (fields : List String) : List ElementGenerator :=
  fields.filterMap (get_field_struct generators)

/-- The `independent_elements` accumulator of `find_root_element`
lines 76–81. -/
def independentElements (generators dependent : List ElementGenerator) :
    List ElementGenerator :=
  generators.filter (fun g => ¬ elemMem g dependent)

/-- `find_root_element` from `find_root.rs` lines 37–108.  The final loop's
`unreachable!()` is modelled as a distinguished error; the theorems show the
singleton case never reaches it. -/
def find_root_element (generators : List ElementGenerator) :
    Except XMLGeneratorError ElementGenerator :=
  if generators.isEmpty then
    .error (.DataTypesFormatError "No elements found")
  else
    match allFields generators with
    | .error e => .error e
    | .ok fields =>
      let dependent := dependentElements generators fields
      let independent := independentElements generators dependent
      if independent.isEmpty then
        .error (.DataTypesFormatError "No independent elements found")
      else if 1 < independent.length then
        .error (.DataTypesFormatError
          "Multiple independent (root) elements found!")
      else
        match generators.find? (fun g => elemMem g independent) with
        | some g => .ok g
        | none => .error (.DataTypesFormatError "unreachable")

/-! ### Simple-type collection (`fetch_types.rs` lines 14–111)

The `xsd_parser` AST subset the simple-type collector consumes.  Constructor
names follow the source (`Annotation` variants are abbreviated to `Annot`).
`unimplemented!` panics are modelled as `Option.none`. -/

/-- QName from `xsd_parser`: optional namespace plus local name. -/
structure QName where
  ns : Option String
  local_name : String

/-- `get_qname` from `fetch_types.rs` lines 14–16: the local part. -/
def get_qname (qname : QName) : String := qname.local_name

/-- `FacetType` node: `fixed` flag, optional annotation, textual value. -/
structure FacetType where
  fixed : Bool
  annot : Option Unit
  value : String

/-- `Facet` variants from `xsd_parser` (all carrying a `FacetType` except
`Assertion`). -/
inductive Facet where
  | MinExclusive (x : FacetType)
  | MinInclusive (x : FacetType)
  | MaxExclusive (x : FacetType)
  | MaxInclusive (x : FacetType)
  | TotalDigits (x : FacetType)
  | FractionDigits (x : FacetType)
  | Length (x : FacetType)
  | MinLength (x : FacetType)
  | MaxLength (x : FacetType)
  | Enumeration (x : FacetType)
  | WhiteSpace (x : FacetType)
  | Pattern (x : FacetType)
  | Assertion
  | ExplicitTimezone (x : FacetType)

/-- `RestrictionContent` variants (`Annotation`/`SimpleType` are
unsupported). -/
inductive RestrictionContent where
  | Annot
  | SimpleTypeContent
  | FacetContent (x : Facet)

/-- `Restriction` node: optional base QName plus ordered content. -/
structure Restriction where
  base : Option QName
  content : List RestrictionContent

/-- `RestrictionInfo` struct from `restriction.rs`. -/
structure RestrictionInfo where
  name : String
  facets : List String

/-- `RestrictionInfo::new` from `restriction.rs`. -/
def RestrictionInfo.new : RestrictionInfo := { name := "", facets := [] }

/-- `SimpleBaseTypeContent` variants (only `Restriction` is supported). -/
inductive SimpleBaseTypeContent where
  | Annot
  | RestrictionContent_ (x : Restriction)
  | ListContent
  | UnionContent

/-- `SimpleBaseType` node: optional name, optional `final`, ordered
content. -/
structure SimpleBaseType where
  name : Option String
  final_ : Option Unit
  content : List SimpleBaseTypeContent

/-- `get_facet_type` from `fetch_types.rs` lines 18–28: `fixed` facets and
facet annotations are `unimplemented!` (modelled as `none`). -/
def get_facet_type (facet_type : FacetType) : Option String :=
  if facet_type.fixed then none
  else if facet_type.annot.isSome then none
  else some facet_type.value

/-- `get_facet` from `fetch_types.rs` lines 30–47: the facet's value;
`Assertion` is `unimplemented!`. -/
def get_facet : Facet → Option String
  | .MinExclusive x => get_facet_type x
  | .MinInclusive x => get_facet_type x
  | .MaxExclusive x => get_facet_type x
  | .MaxInclusive x => get_facet_type x
  | .TotalDigits x => get_facet_type x
  | .FractionDigits x => get_facet_type x
  | .Length x => get_facet_type x
  | .MinLength x => get_facet_type x
  | .MaxLength x => get_facet_type x
  | .Enumeration x => get_facet_type x
  | .WhiteSpace x => get_facet_type x
  | .Pattern x => get_facet_type x
  | .Assertion => none
  | .ExplicitTimezone x => get_facet_type x

/-- `get_restriction_content` from `fetch_types.rs` lines 49–55. -/
def get_restriction_content : RestrictionContent → Option String
  | .Annot => none
  | .SimpleTypeContent => none
  | .FacetContent x => get_facet x

/-- Facet loop of `get_restriction` (`fetch_types.rs` lines 63–66); a panic
(`none`) in any item propagates. -/
def collectFacets : List RestrictionContent → Option (List String)
  | [] => some []
  | c :: rest =>
    match get_restriction_content c with
    | none => none
    | some v =>
      match collectFacets rest with
      | none => none
      | some vs => some (v :: vs)

/-- `get_restriction` from `fetch_types.rs` lines 57–69: base local name (or
empty) plus every facet value in source order. -/
def get_restriction (restriction : Restriction) : Option RestrictionInfo :=
  match collectFacets restriction.content with
  | none => none
  | some facets =>
    some { name :=
             match restriction.base with
             | some q => get_qname q
             | none => RestrictionInfo.new.name,
           facets := facets }

/-- `get_content_restriction` from `fetch_types.rs` lines 71–78. -/
def get_content_restriction : SimpleBaseTypeContent → Option RestrictionInfo
  | .Annot => none
  | .RestrictionContent_ x => get_restriction x
  | .ListContent => none
  | .UnionContent => none

/-- Restriction loop of `get_simple_type` (`fetch_types.rs` lines 91–95). -/
def collectRestrictions : List SimpleBaseTypeContent →
    Option (List RestrictionInfo)
  | [] => some []
  | c :: rest =>
    match get_content_restriction c with
    | none => none
    | some i =>
      match collectRestrictions rest with
      | none => none
      | some is_ => some (i :: is_)

/-- `get_simple_type` from `fetch_types.rs` lines 80–111: a named simple
type becomes a `TypeGenerator` whose `type_info` is `["string"]` when there
is no restriction content, else each restriction's base name followed by its
facet values. -/
def get_simple_type (simple : SimpleBaseType) : Option TypeGenerator :=
  let name := simple.name.getD ""
  if name = "" then none
  else if simple.final_.isSome then none
  else
    match collectRestrictions simple.content with
    | none => none
    | some restrictions =>
      if restrictions.isEmpty then
        some (.mk name ["string"] [] [] [] 1 none)
      else
        some (.mk name
          (restrictions.flatMap (fun r => r.name :: r.facets)) [] [] [] 1 none)

/-- Textual value a restriction-content item carries when it is a plain
facet (empty for the unsupported items, which never survive collection). -/
def facetTokenValue : RestrictionContent → String
  | .FacetContent (.MinExclusive x) => x.value
  | .FacetContent (.MinInclusive x) => x.value
  | .FacetContent (.MaxExclusive x) => x.value
  | .FacetContent (.MaxInclusive x) => x.value
  | .FacetContent (.TotalDigits x) => x.value
  | .FacetContent (.FractionDigits x) => x.value
  | .FacetContent (.Length x) => x.value
  | .FacetContent (.MinLength x) => x.value
  | .FacetContent (.MaxLength x) => x.value
  | .FacetContent (.Enumeration x) => x.value
  | .FacetContent (.WhiteSpace x) => x.value
  | .FacetContent (.Pattern x) => x.value
  | .FacetContent (.ExplicitTimezone x) => x.value
  | _ => ""

/-- Tokens a supported restriction node contributes to `type_info`, read off
the AST: the base's local name (empty when absent) followed by the facet
values in source order. -/
def restrictionTokens (r : Restriction) : List String :=
  (match r.base with
   | some q => get_qname q
   | none => "") :: r.content.map facetTokenValue

/-- Tokens a supported simple-type content item contributes: only
restriction items contribute. -/
def contentTokens : SimpleBaseTypeContent → List String
  | .RestrictionContent_ r => restrictionTokens r
  | _ => []

/-! ### Concrete fixtures used by witnesses and counterexamples -/

/-- Sampler environment with constant draws, for concrete evaluations. -/
def envW : RandEnv :=
  { fake := fun _ _ => "v", regexSample := fun _ _ => "s" }

/-- Element `A` declaring `type_info = "B"` (the name of `egB`). -/
def egA : ElementGenerator := .mk (some "A") [] (some "B") none 1 none

/-- Element `B`, named by `egA`'s `type_info`. -/
def egB : ElementGenerator := .mk (some "B") [] none none 1 none

/-- Two plain, unrelated top-level elements. -/
def egC : ElementGenerator := .mk (some "C") [] none none 1 none

def egD : ElementGenerator := .mk (some "D") [] none none 1 none

/-- Inline content type holding a child element named `R`. -/
def tgR : TypeGenerator :=
  .mk "" [] [.mk (some "R") [] none none 1 none] [] [] 1 none

/-- Element `R` whose inline content contains an element named `R`
(a self-cycle). -/
def egR : ElementGenerator := .mk (some "R") [tgR] none none 1 none

/-- Inline content type holding a child element named `Q`. -/
def tgP : TypeGenerator :=
  .mk "" [] [.mk (some "Q") [] none none 1 none] [] [] 1 none

/-- Element `P` whose inline content mentions `Q`. -/
def egP : ElementGenerator := .mk (some "P") [tgP] none none 1 none

/-- Element `Q`, a dependent element of `egP`'s content. -/
def egQ : ElementGenerator := .mk (some "Q") [] none none 1 none

/-- Required attribute whose type name resolves to nothing. -/
def attrC2 : AttributeGenerator :=
  { name := "a", attribute_type := .Required, type_name := "nosuch" }

/-- Complex type carrying only the unresolvable required attribute. -/
def tgC2 : TypeGenerator := .mk "T" [] [] [] [attrC2] 1 none

/-- Child element position with `min = 2`. -/
def egC4 : ElementGenerator := .mk (some "x") [] (some "boolean") none 2 (some 5)

/-- Type with a single child position whose `min` is 2. -/
def tgC4 : TypeGenerator := .mk "T" [] [egC4] [] [] 1 none

/-- Referenced target element `T` of simple type `boolean`. -/
def egT : ElementGenerator := .mk (some "T") [] (some "boolean") none 1 none

/-- Pure reference element pointing at `T`. -/
def egRef : ElementGenerator := .mk none [] none (some "T") 1 none

/-- Element `U`, not matching the reference `T`. -/
def egU : ElementGenerator := .mk (some "U") [] none none 1 none

/-- Simple type `code` restricting `string` by one pattern facet. -/
def sbtCode : SimpleBaseType :=
  { name := some "code", final_ := none,
    content := [.RestrictionContent_
      { base := some { ns := none, local_name := "string" },
        content := [.FacetContent (.Pattern
          { fixed := false, annot := none, value := "[A-Z]" })] }] }

/-! ### Characterisation of the hand-written `PartialEq`

`eqEG` ignores `reference`, `min` and `max`; erasing those fields turns it
into propositional equality, which yields reflexivity, symmetry and
transitivity of the Boolean comparison used by `Vec::contains`. -/

mutual
/-- Erase the fields `PartialEq for ElementGenerator` ignores. -/
def normEG : ElementGenerator → ElementGenerator
  | .mk n c t _ _ _ => .mk n (normTGList c) t none 0 none

def normTGList : List TypeGenerator → List TypeGenerator
  | [] => []
  | t :: ts => normTG t :: normTGList ts

def normTG : TypeGenerator → TypeGenerator
  | .mk n ti es gs as_ mn mx =>
    .mk n ti (normEGList es) (normGGList gs) as_ mn mx

def normEGList : List ElementGenerator → List ElementGenerator
  | [] => []
  | e :: es => normEG e :: normEGList es

def normGG : GroupGenerator → GroupGenerator
  | .mk es mn mx => .mk (normEGList es) mn mx

def normGGList : List GroupGenerator → List GroupGenerator
  | [] => []
  | g :: gs => normGG g :: normGGList gs
end

theorem normTGList_length : ∀ l : List TypeGenerator,
    (normTGList l).length = l.length
  | [] => rfl
  | _ :: ts => by simp only [normTGList, List.length_cons, normTGList_length ts]

theorem eqAG_iff (a b : AttributeGenerator) : eqAG a b = true ↔ a = b := by
  cases a; cases b
  simp only [eqAG, decide_eq_true_eq, AttributeGenerator.mk.injEq]
  tauto

theorem eqAGList_iff : ∀ as_ bs : List AttributeGenerator,
    eqAGList as_ bs = true ↔ as_ = bs
  | [], [] => by simp [eqAGList]
  | [], _ :: _ => by simp [eqAGList]
  | _ :: _, [] => by simp [eqAGList]
  | a :: as_, b :: bs => by
    simp [eqAGList, Bool.and_eq_true, eqAG_iff, eqAGList_iff as_ bs]

mutual
theorem eqEG_iff_norm : ∀ a b : ElementGenerator,
    eqEG a b = true ↔ normEG a = normEG b
  | .mk n₁ c₁ t₁ _ _ _, .mk n₂ c₂ t₂ _ _ _ => by
    simp only [eqEG, normEG, Bool.and_eq_true, decide_eq_true_eq,
      ElementGenerator.mk.injEq, and_true]
    constructor
    · rintro ⟨⟨⟨hn, ht⟩, _⟩, hc⟩
      exact ⟨hn, (eqTGList_iff_norm c₁ c₂).mp hc, ht⟩
    · rintro ⟨hn, hc, ht⟩
      refine ⟨⟨⟨hn, ht⟩, ?_⟩, (eqTGList_iff_norm c₁ c₂).mpr hc⟩
      have := congrArg List.length hc
      rwa [normTGList_length, normTGList_length] at this

theorem eqTGList_iff_norm : ∀ a b : List TypeGenerator,
    eqTGList a b = true ↔ normTGList a = normTGList b
  | [], [] => by simp [eqTGList, normTGList]
  | [], _ :: _ => by simp [eqTGList, normTGList]
  | _ :: _, [] => by simp [eqTGList, normTGList]
  | a :: as_, b :: bs => by
    simp only [eqTGList, normTGList, Bool.and_eq_true, List.cons.injEq]
    rw [eqTG_iff_norm a b, eqTGList_iff_norm as_ bs]

theorem eqTG_iff_norm : ∀ a b : TypeGenerator,
    eqTG a b = true ↔ normTG a = normTG b
  | .mk n₁ ti₁ e₁ g₁ a₁ mn₁ mx₁, .mk n₂ ti₂ e₂ g₂ a₂ mn₂ mx₂ => by
    simp only [eqTG, normTG, Bool.and_eq_true, decide_eq_true_eq,
      TypeGenerator.mk.injEq]
    rw [eqEGList_iff_norm e₁ e₂, eqGGList_iff_norm g₁ g₂, eqAGList_iff a₁ a₂]
    tauto

theorem eqEGList_iff_norm : ∀ a b : List ElementGenerator,
    eqEGList a b = true ↔ normEGList a = normEGList b
  | [], [] => by simp [eqEGList, normEGList]
  | [], _ :: _ => by simp [eqEGList, normEGList]
  | _ :: _, [] => by simp [eqEGList, normEGList]
  | a :: as_, b :: bs => by
    simp only [eqEGList, normEGList, Bool.and_eq_true, List.cons.injEq]
    rw [eqEG_iff_norm a b, eqEGList_iff_norm as_ bs]

theorem eqGG_iff_norm : ∀ a b : GroupGenerator,
    eqGG a b = true ↔ normGG a = normGG b
  | .mk e₁ mn₁ mx₁, .mk e₂ mn₂ mx₂ => by
    simp only [eqGG, normGG, Bool.and_eq_true, decide_eq_true_eq,
      GroupGenerator.mk.injEq]
    rw [eqEGList_iff_norm e₁ e₂]
    tauto

theorem eqGGList_iff_norm : ∀ a b : List GroupGenerator,
    eqGGList a b = true ↔ normGGList a = normGGList b
  | [], [] => by simp [eqGGList, normGGList]
  | [], _ :: _ => by simp [eqGGList, normGGList]
  | _ :: _, [] => by simp [eqGGList, normGGList]
  | a :: as_, b :: bs => by
    simp only [eqGGList, normGGList, Bool.and_eq_true, List.cons.injEq]
    rw [eqGG_iff_norm a b, eqGGList_iff_norm as_ bs]
end

theorem eqEG_refl (a : ElementGenerator) : eqEG a a = true :=
  (eqEG_iff_norm a a).mpr rfl

theorem eqEG_symm {a b : ElementGenerator} (h : eqEG a b = true) :
    eqEG b a = true :=
  (eqEG_iff_norm b a).mpr ((eqEG_iff_norm a b).mp h).symm

theorem eqEG_trans {a b c : ElementGenerator} (h₁ : eqEG a b = true)
    (h₂ : eqEG b c = true) : eqEG a c = true :=
  (eqEG_iff_norm a c).mpr
    (((eqEG_iff_norm a b).mp h₁).trans ((eqEG_iff_norm b c).mp h₂))

theorem normEG_name (a : ElementGenerator) : (normEG a).name = a.name := by
  cases a; rfl

theorem eqEG_name_eq {a b : ElementGenerator} (h : eqEG a b = true) :
    a.name = b.name := by
  have hn := congrArg ElementGenerator.name ((eqEG_iff_norm a b).mp h)
  rwa [normEG_name, normEG_name] at hn

/-! ### Claims about the value generator (C6, C10) -/

/-- C6: a facet chain of length 1 produces a value exactly for the six
primitive bases `boolean`, `decimal`, `double`, `integer`,
`positiveInteger`, `string`; a chain of length 2 produces one regex sample
exactly when the base case-insensitively equals `string`, and returns no
value for any other base; every chain of length greater than 2 returns no
value. -/
theorem c6_value_generator_chain_dispatch :
    (∀ (env : RandEnv) (g : Nat) (base : String),
      (generate env g [base]).isSome = true ↔
        base ∈ ["boolean", "decimal", "double", "integer",
                "positiveInteger", "string"]) ∧
    (∀ (env : RandEnv) (g : Nat) (base pattern : String),
      toLowerStr base = "string" →
        generate env g [base, pattern] =
          some (env.regexSample zeroSeed pattern)) ∧
    (∀ (env : RandEnv) (g : Nat) (base pattern : String),
      toLowerStr base ≠ "string" → generate env g [base, pattern] = none) ∧
    (∀ (env : RandEnv) (g : Nat) (chain : List String),
      2 < chain.length → generate env g chain = none) := by
  refine ⟨?_, ?_, ?_, ?_⟩
  · intro env g base
    simp only [generate, generate_type, make_fake, List.mem_cons,
      List.not_mem_nil, or_false]
    split_ifs <;> simp_all
  · intro env g base pattern h
    simp [generate, generate_regex, h]
  · intro env g base pattern h
    simp [generate, generate_regex, h]
  · intro env g chain h
    match chain with
    | [] => simp at h
    | [_] => simp at h
    | [_, _] => simp at h
    | _ :: _ :: _ :: _ => rfl

/-- Witness for C6 at concrete chains. -/
theorem c6_value_generator_chain_dispatch_witness :
    (generate envW 0 ["boolean"]).isSome = true ∧
    generate envW 0 ["String", "[A-Z]"] =
      some (envW.regexSample zeroSeed "[A-Z]") ∧
    generate envW 0 ["integer", "[A-Z]"] = none ∧
    generate envW 0 ["string", "a", "b"] = none :=
  ⟨(c6_value_generator_chain_dispatch.1 envW 0 "boolean").mpr (by decide),
   c6_value_generator_chain_dispatch.2.1 envW 0 "String" "[A-Z]" (by decide),
   c6_value_generator_chain_dispatch.2.2.1 envW 0 "integer" "[A-Z]" (by decide),
   c6_value_generator_chain_dispatch.2.2.2 envW 0 ["string", "a", "b"]
     (by decide)⟩

/-- C10: the pattern branch of the value generator is insensitive to the
ambient random-source state, because `generate_regex` reseeds its own
generator from the all-zero seed on every call; hence any two invocations
(or runs) on the same base/pattern chain return the same result. -/
theorem c10_pattern_generation_deterministic :
    ∀ (env : RandEnv) (g₁ g₂ : Nat) (base pattern : String),
      generate_regex env g₁ base pattern = generate_regex env g₂ base pattern ∧
      generate env g₁ [base, pattern] = generate env g₂ [base, pattern] :=
  fun _ _ _ _ _ => ⟨rfl, rfl⟩

/-! ### Claim C5: named-type dispatch in `generate_type_output` -/

/-- C5: type output for a bare name tries the primitive generator first and,
on success, attaches the value as text without consulting the type table;
otherwise the first table entry with a matching name is emitted; otherwise
the operation fails with `DataTypeError "Cannot find data type: <name>"`. -/
theorem c5_named_type_dispatch :
    (∀ (fuel : Nat) (env : RandEnv) (g : Nat) (el : XMLElement)
        (name : String) (dts : List TypeGenerator)
        (els : List ElementGenerator) (v : String),
      generate_type env g name = some v →
        generate_type_output (fuel + 1) env g el name dts els =
          match el.addText v with
          | .ok e => .ok e
          | .error err => .error (.XMLBuilderError err)) ∧
    (∀ (fuel : Nat) (env : RandEnv) (g : Nat) (el : XMLElement)
        (name : String) (dts : List TypeGenerator)
        (els : List ElementGenerator) (t : TypeGenerator),
      generate_type env g name = none →
      dts.find? (fun tg => tg.name = name) = some t →
        generate_type_output (fuel + 1) env g el name dts els =
          TypeGenerator.generate fuel env g t el dts els) ∧
    (∀ (fuel : Nat) (env : RandEnv) (g : Nat) (el : XMLElement)
        (name : String) (dts : List TypeGenerator)
        (els : List ElementGenerator),
      generate_type env g name = none →
      (∀ t ∈ dts, t.name ≠ name) →
        generate_type_output (fuel + 1) env g el name dts els =
          .error (.DataTypeError ("Cannot find data type: " ++ name))) := by
  refine ⟨?_, ?_, ?_⟩
  · intro fuel env g el name dts els v h
    simp only [generate_type_output, h]
  · intro fuel env g el name dts els t h hf
    simp only [generate_type_output, h, hf]
  · intro fuel env g el name dts els h hf
    have : dts.find? (fun tg => tg.name = name) = none :=
      List.find?_eq_none.mpr (fun t ht => by simp [hf t ht])
    simp only [generate_type_output, h, this]

/-- Witness for C5: `string` hits the primitive branch; a named table type
is found; an unknown name fails. -/
theorem c5_named_type_dispatch_witness :
    generate_type_output 6 envW 0 (XMLElement.new "E") "string" [] [] =
      .ok (XMLElement.mk "E" [] (some "v") []) ∧
    generate_type_output 6 envW 0 (XMLElement.new "E") "T" [tgC2] [] =
      TypeGenerator.generate 5 envW 0 tgC2 (XMLElement.new "E") [tgC2] [] ∧
    generate_type_output 6 envW 0 (XMLElement.new "E") "nosuch" [] [] =
      .error (.DataTypeError ("Cannot find data type: " ++ "nosuch")) :=
  ⟨(c5_named_type_dispatch.1 5 envW 0 (XMLElement.new "E") "string" [] []
      "v" rfl).trans rfl,
   c5_named_type_dispatch.2.1 5 envW 0 (XMLElement.new "E") "T" [tgC2] []
     tgC2 rfl rfl,
   c5_named_type_dispatch.2.2 5 envW 0 (XMLElement.new "E") "nosuch" [] []
     rfl (by intro t ht; simp at ht)⟩

/-! ### Claim C7: simple-type output in `TypeGenerator::generate` -/

/-- C7: a `TypeSpec` with a non-empty `type_info` chain rejects co-occurring
elements or groups with `DataTypesFormatError`; otherwise the value
generator runs on the chain, a `None` result fails with exactly
`DataTypeError "No output generated"`, and a `Some` result is attached to
the element as text (after which only the attribute loop remains). -/
theorem c7_simple_type_output :
    (∀ (fuel : Nat) (env : RandEnv) (g : Nat) (tg : TypeGenerator)
        (el : XMLElement) (dts : List TypeGenerator)
        (els : List ElementGenerator),
      tg.type_info ≠ [] → tg.elements ≠ [] →
        TypeGenerator.generate (fuel + 1) env g tg el dts els =
          .error (.DataTypesFormatError
            "Type includes type information and elements")) ∧
    (∀ (fuel : Nat) (env : RandEnv) (g : Nat) (tg : TypeGenerator)
        (el : XMLElement) (dts : List TypeGenerator)
        (els : List ElementGenerator),
      tg.type_info ≠ [] → tg.elements = [] → tg.groups ≠ [] →
        TypeGenerator.generate (fuel + 1) env g tg el dts els =
          .error (.DataTypesFormatError
            "Type includes type information and groups")) ∧
    (∀ (fuel : Nat) (env : RandEnv) (g : Nat) (tg : TypeGenerator)
        (el : XMLElement) (dts : List TypeGenerator)
        (els : List ElementGenerator),
      tg.type_info ≠ [] → tg.elements = [] → tg.groups = [] →
      XmlGenerator.generate env g tg.type_info = none →
        TypeGenerator.generate (fuel + 1) env g tg el dts els =
          .error (.DataTypeError "No output generated")) ∧
    (∀ (fuel : Nat) (env : RandEnv) (g : Nat) (tg : TypeGenerator)
        (nm : String) (ats : List (String × String))
        (dts : List TypeGenerator) (els : List ElementGenerator) (v : String),
      tg.type_info ≠ [] → tg.elements = [] → tg.groups = [] →
      XmlGenerator.generate env g tg.type_info = some v →
        TypeGenerator.generate (fuel + 1) env g tg
            (XMLElement.mk nm ats none []) dts els =
          attrLoop env g tg.attributes (XMLElement.mk nm ats (some v) [])
            dts) := by
  refine ⟨?_, ?_, ?_, ?_⟩
  · intro fuel env g tg el dts els hti hel
    obtain ⟨n, ti, es, gs, as_, mn, mx⟩ := tg
    simp only [TypeGenerator.type_info, TypeGenerator.elements] at hti hel
    simp [TypeGenerator.generate, List.isEmpty_iff, hti, hel,
      TypeGenerator.type_info, TypeGenerator.elements]
  · intro fuel env g tg el dts els hti hel hgr
    obtain ⟨n, ti, es, gs, as_, mn, mx⟩ := tg
    simp only [TypeGenerator.type_info, TypeGenerator.elements,
      TypeGenerator.groups] at hti hel hgr
    subst hel
    simp [TypeGenerator.generate, List.isEmpty_iff, hti, hgr,
      TypeGenerator.type_info, TypeGenerator.elements, TypeGenerator.groups]
  · intro fuel env g tg el dts els hti hel hgr hgen
    obtain ⟨n, ti, es, gs, as_, mn, mx⟩ := tg
    simp only [TypeGenerator.type_info, TypeGenerator.elements,
      TypeGenerator.groups] at hti hel hgr hgen
    subst hel; subst hgr
    simp [TypeGenerator.generate, List.isEmpty_iff, hti, hgen,
      TypeGenerator.type_info, TypeGenerator.elements, TypeGenerator.groups]
  · intro fuel env g tg nm ats dts els v hti hel hgr hgen
    obtain ⟨n, ti, es, gs, as_, mn, mx⟩ := tg
    simp only [TypeGenerator.type_info, TypeGenerator.elements,
      TypeGenerator.groups] at hti hel hgr hgen
    subst hel; subst hgr
    simp [TypeGenerator.generate, List.isEmpty_iff, hti, hgen,
      XMLElement.addText, elemsLoop, groupsLoop, TypeGenerator.attributes,
      TypeGenerator.type_info, TypeGenerator.elements, TypeGenerator.groups]

/-- Witness for C7: a `None` chain fails, a `Some` chain becomes text. -/
theorem c7_simple_type_output_witness :
    TypeGenerator.generate 4 envW 0 (TypeGenerator.mk "S" ["nosuch", "p", "q"]
        [] [] [] 1 none) (XMLElement.new "E") [] [] =
      .error (.DataTypeError "No output generated") ∧
    TypeGenerator.generate 4 envW 0 (TypeGenerator.mk "S" ["boolean"]
        [] [] [] 1 none) (XMLElement.mk "E" [] none []) [] [] =
      attrLoop envW 0 [] (XMLElement.mk "E" [] (some "v") []) [] :=
  ⟨c7_simple_type_output.2.2.1 3 envW 0
      (TypeGenerator.mk "S" ["nosuch", "p", "q"] [] [] [] 1 none)
      (XMLElement.new "E") [] [] (by simp [TypeGenerator.type_info]) rfl rfl
      rfl,
   c7_simple_type_output.2.2.2 3 envW 0
      (TypeGenerator.mk "S" ["boolean"] [] [] [] 1 none) "E" [] [] [] "v"
      (by simp [TypeGenerator.type_info]) rfl rfl rfl⟩

/-! ### Claim C2: attributes with unresolvable type names -/

/-- Helper: a base outside the six primitives generates no value. -/
theorem generate_type_eq_none {env : RandEnv} {g : Nat} {name : String}
    (h : name ∉ ["boolean", "decimal", "double", "integer",
                 "positiveInteger", "string"]) :
    generate_type env g name = none := by
  simp only [List.mem_cons, List.not_mem_nil, or_false, not_or] at h
  obtain ⟨h₁, h₂, h₃, h₄, h₅, h₆⟩ := h
  simp [generate_type, h₁, h₂, h₃, h₄, h₅, h₆]

/-- Helper: the table scan leaves the element unchanged when no entry
matches the attribute's type name. -/
theorem attrTypeScan_no_match {env : RandEnv} {g : Nat}
    {self : AttributeGenerator} {el : XMLElement} :
    ∀ {dts : List TypeGenerator}, (∀ t ∈ dts, t.name ≠ self.type_name) →
      attrTypeScan env g self el dts = .ok el
  | [], _ => rfl
  | t :: rest, h => by
    have ht : t.name ≠ self.type_name := h t (by simp)
    simp only [attrTypeScan, if_neg ht]
    exact attrTypeScan_no_match (fun t' ht' => h t' (by simp [ht']))

/-- C2 (amended): a Required or Optional attribute whose type name neither
is a primitive base nor matches any `TypeSpec` in the table is silently
skipped — emission returns the element unchanged instead of failing with
`DataTypeError`. -/
theorem c2_unresolvable_attribute_silently_skipped :
    ∀ (env : RandEnv) (g : Nat) (attr : AttributeGenerator)
      (el : XMLElement) (dts : List TypeGenerator),
      attr.name ≠ "" → attr.type_name ≠ "" →
      attr.type_name ∉ ["boolean", "decimal", "double", "integer",
                        "positiveInteger", "string"] →
      (∀ t ∈ dts, t.name ≠ attr.type_name) →
      AttributeGenerator.generate env g attr el dts = .ok el := by
  intro env g attr el dts hname htname hprim htable
  have hgen : XmlGenerator.generate env g [attr.type_name] = none :=
    generate_type_eq_none hprim
  simp only [AttributeGenerator.generate, if_neg hname, if_neg htname, hgen]
  split_ifs with hproh
  · rfl
  · exact attrTypeScan_no_match htable

/-- Witness for C2 (amended): the unresolvable required attribute `a` of
type `nosuch` is skipped. -/
theorem c2_unresolvable_attribute_silently_skipped_witness :
    AttributeGenerator.generate envW 0 attrC2 (XMLElement.new "R") [] =
      .ok (XMLElement.new "R") :=
  c2_unresolvable_attribute_silently_skipped envW 0 attrC2
    (XMLElement.new "R") [] (by decide) (by decide) (by decide)
    (by intro t ht; simp at ht)

/-- Counterexample for C2 as stated: emission of the Required attribute
`a : nosuch` does not fail with `DataTypeError`; it succeeds, and emitting a
type that carries this attribute yields an element with no attributes at
all, so the Required attribute is absent. -/
theorem c2_counterexample :
    attrC2.attribute_type = .Required ∧
    AttributeGenerator.generate envW 0 attrC2 (XMLElement.new "R") [] =
      .ok (XMLElement.new "R") ∧
    TypeGenerator.generate 3 envW 0 tgC2 (XMLElement.new "R") [] [] =
      .ok (XMLElement.new "R") ∧
    (XMLElement.new "R").attributes = [] := by
  refine ⟨rfl, rfl, ?_, rfl⟩
  rfl

/-! ### Claim C8: reference resolution in element emission -/

/-- Helper: the reference scan yields `none` when every element resolves to
a name different from the reference. -/
theorem findReference_eq_none {r : String} :
    ∀ {els : List ElementGenerator},
      (∀ e ∈ els, ∃ nm, e.get_name = .ok nm ∧ nm ≠ r) →
        findReference r els = .ok none
  | [], _ => rfl
  | e :: rest, h => by
    obtain ⟨nm, hnm, hne⟩ := h e (by simp)
    simp only [findReference, hnm, if_neg hne]
    exact findReference_eq_none (fun e' he' => h e' (by simp [he']))

/-- Helper: a successful reference scan returns a member of the list whose
`get_name` is exactly the reference. -/
theorem findReference_eq_some {r : String} :
    ∀ {els : List ElementGenerator} {e : ElementGenerator},
      findReference r els = .ok (some e) →
        e ∈ els ∧ e.get_name = .ok r
  | [], _, h => by simp [findReference] at h
  | e' :: rest, e, h => by
    rcases hn : e'.get_name with err | nm
    · simp [findReference, hn] at h
    · by_cases hr : nm = r
      · have : e' = e := by
          simpa [findReference, hn, hr] using h
        subst this
        exact ⟨by simp, by simp [hn, hr]⟩
      · have h' : findReference r rest = .ok (some e) := by
          simpa [findReference, hn, hr] using h
        obtain ⟨hm, hgn⟩ := findReference_eq_some h'
        exact ⟨by simp [hm], hgn⟩

/-- C8: an element with a reference rejects a co-occurring `type_info` or
non-empty `contents` with a `DataTypesFormatError`; otherwise the element
list is scanned for an entry whose `get_name()` equals the reference, that
entry is emitted recursively, and an unmatched reference fails with exactly
`XMLBuilderError "Reference not found"`. -/
theorem c8_reference_emission :
    (∀ (fuel : Nat) (env : RandEnv) (g : Nat) (self : ElementGenerator)
        (dts : List TypeGenerator) (els : List ElementGenerator) (r : String),
      self.reference = some r → self.type_info.isSome →
        ElementGenerator.generate (fuel + 1) env g self dts els =
          .error (.DataTypesFormatError "Element is a reference and a type")) ∧
    (∀ (fuel : Nat) (env : RandEnv) (g : Nat) (self : ElementGenerator)
        (dts : List TypeGenerator) (els : List ElementGenerator) (r : String),
      self.reference = some r → self.type_info = none → self.contents ≠ [] →
        ElementGenerator.generate (fuel + 1) env g self dts els =
          .error (.DataTypesFormatError
            "Element references another element an contains content")) ∧
    (∀ (fuel : Nat) (env : RandEnv) (g : Nat) (self : ElementGenerator)
        (dts : List TypeGenerator) (els : List ElementGenerator) (r : String)
        (e : ElementGenerator),
      self.reference = some r → self.type_info = none → self.contents = [] →
      findReference r els = .ok (some e) →
        ElementGenerator.generate (fuel + 2) env g self dts els =
          ElementGenerator.generate fuel env g e dts els) ∧
    (∀ (fuel : Nat) (env : RandEnv) (g : Nat) (self : ElementGenerator)
        (dts : List TypeGenerator) (els : List ElementGenerator) (r : String),
      self.reference = some r → self.type_info = none → self.contents = [] →
      (∀ e ∈ els, ∃ nm, e.get_name = .ok nm ∧ nm ≠ r) →
        ElementGenerator.generate (fuel + 2) env g self dts els =
          .error (.XMLBuilderError "Reference not found")) ∧
    (∀ (r : String) (els : List ElementGenerator) (e : ElementGenerator),
      findReference r els = .ok (some e) →
        e ∈ els ∧ e.get_name = .ok r) := by
  refine ⟨?_, ?_, ?_, ?_, fun r els e h => findReference_eq_some h⟩
  · intro fuel env g self dts els r href hti
    rw [Option.isSome_iff_exists] at hti
    obtain ⟨t, ht⟩ := hti
    simp [ElementGenerator.generate, href, ht]
  · intro fuel env g self dts els r href hti hc
    simp [ElementGenerator.generate, href, hti, List.isEmpty_iff, hc]
  · intro fuel env g self dts els r e href hti hc hfind
    simp [ElementGenerator.generate, generate_reference, href, hti,
      List.isEmpty_iff, hc, hfind]
  · intro fuel env g self dts els r href hti hc hnone
    simp [ElementGenerator.generate, generate_reference, href, hti,
      List.isEmpty_iff, hc, findReference_eq_none hnone]

/-- Witness for C8: `egRef` resolves to `egT` and recurses; against a list
without `T` it fails with `Reference not found`; a reference combined with a
type fails. -/
theorem c8_reference_emission_witness :
    ElementGenerator.generate 5 envW 0 egRef [] [egT] =
      ElementGenerator.generate 3 envW 0 egT [] [egT] ∧
    ElementGenerator.generate 5 envW 0 egRef [] [egU] =
      .error (.XMLBuilderError "Reference not found") ∧
    ElementGenerator.generate 4 envW 0
        (ElementGenerator.mk none [] (some "boolean") (some "T") 1 none)
        [] [egT] =
      .error (.DataTypesFormatError "Element is a reference and a type") :=
  ⟨c8_reference_emission.2.2.1 3 envW 0 egRef [] [egT] "T" egT rfl rfl rfl
      rfl,
   c8_reference_emission.2.2.2.1 3 envW 0 egRef [] [egU] "T" rfl rfl rfl
     (by
       intro e he
       simp only [List.mem_singleton] at he
       subst he
       exact ⟨"U", rfl, by decide⟩),
   c8_reference_emission.1 3 envW 0
     (ElementGenerator.mk none [] (some "boolean") (some "T") 1 none)
     [] [egT] "T" rfl rfl⟩

/-! ### Claim C4: instances per child position -/

theorem addText_children {el el' : XMLElement} {t : String}
    (h : el.addText t = .ok el') : el'.children = el.children := by
  obtain ⟨n, a, tx, cs⟩ := el
  rcases tx with _ | t'
  · rcases cs with _ | ⟨c, cs⟩
    · simp only [XMLElement.addText, Except.ok.injEq] at h
      subst h; rfl
    · simp [XMLElement.addText] at h
  · simp [XMLElement.addText] at h

theorem addChild_children {el el' c : XMLElement}
    (h : el.addChild c = .ok el') : el'.children = el.children ++ [c] := by
  obtain ⟨n, a, tx, cs⟩ := el
  rcases tx with _ | t'
  · simp only [XMLElement.addChild, Except.ok.injEq] at h
    subst h; rfl
  · simp [XMLElement.addChild] at h

theorem addAttribute_children (el : XMLElement) (k v : String) :
    (el.addAttribute k v).children = el.children := by
  obtain ⟨n, a, tx, cs⟩ := el
  rfl

theorem generate_attribute_from_type_children {env : RandEnv} {g : Nat}
    {el el' : XMLElement} {tg : TypeGenerator} {nm : String}
    (h : generate_attribute_from_type env g el tg nm = .ok el') :
    el'.children = el.children := by
  simp only [generate_attribute_from_type] at h
  split_ifs at h
  split at h
  · rename_i v hv
    simp only [Except.ok.injEq] at h
    subst h
    exact addAttribute_children el nm v
  · simp at h

theorem attrTypeScan_children {env : RandEnv} {g : Nat}
    {self : AttributeGenerator} :
    ∀ {dts : List TypeGenerator} {el el' : XMLElement},
      attrTypeScan env g self el dts = .ok el' → el'.children = el.children
  | [], el, el', h => by
    simp only [attrTypeScan, Except.ok.injEq] at h
    subst h; rfl
  | t :: rest, el, el', h => by
    simp only [attrTypeScan] at h
    split_ifs at h
    · rcases hg : generate_attribute_from_type env g el t self.name with e | el₁
      · rw [hg] at h; simp at h
      · rw [hg] at h
        exact (attrTypeScan_children h).trans
          (generate_attribute_from_type_children hg)
    · exact attrTypeScan_children h

theorem attrGen_children {env : RandEnv} {g : Nat}
    {a : AttributeGenerator} {el el' : XMLElement} {dts : List TypeGenerator}
    (h : AttributeGenerator.generate env g a el dts = .ok el') :
    el'.children = el.children := by
  simp only [AttributeGenerator.generate] at h
  split_ifs at h
  · simp only [Except.ok.injEq] at h; subst h; rfl
  · split at h
    · rename_i v hv
      simp only [Except.ok.injEq] at h
      subst h
      exact addAttribute_children el a.name v
    · exact attrTypeScan_children h

theorem attrLoop_children {env : RandEnv} {g : Nat} :
    ∀ {attrs : List AttributeGenerator} {el el' : XMLElement}
      {dts : List TypeGenerator},
      attrLoop env g attrs el dts = .ok el' → el'.children = el.children
  | [], el, el', dts, h => by
    simp only [attrLoop, Except.ok.injEq] at h
    subst h; rfl
  | a :: rest, el, el', dts, h => by
    simp only [attrLoop] at h
    rcases ha : AttributeGenerator.generate env g a el dts with e | el₁
    · rw [ha] at h; simp at h
    · rw [ha] at h
      exact (attrLoop_children h).trans (attrGen_children ha)

theorem elemsLoop_children_length {env : RandEnv} {g : Nat}
    {dts : List TypeGenerator} {els : List ElementGenerator} :
    ∀ {es : List ElementGenerator} {fuel : Nat} {el el' : XMLElement},
      elemsLoop fuel env g es el dts els = .ok el' →
        el'.children.length = el.children.length + es.length
  | [], fuel, el, el', h => by
    simp only [elemsLoop, Except.ok.injEq] at h
    subst h; simp
  | e :: rest, fuel, el, el', h => by
    match fuel with
    | 0 => simp [elemsLoop, outOfFuel] at h
    | n + 1 =>
      simp only [elemsLoop] at h
      split at h
      · simp at h
      · split at h
        · simp at h
        · rename_i el₁ hadd
          have := elemsLoop_children_length h
          rw [this, addChild_children hadd]
          simp
          omega

theorem groupElemsLoop_children_length {env : RandEnv} {g : Nat}
    {dts : List TypeGenerator} {els : List ElementGenerator} :
    ∀ {es : List ElementGenerator} {fuel : Nat} {el el' : XMLElement},
      groupElemsLoop fuel env g es el dts els = .ok el' →
        el'.children.length = el.children.length + es.length
  | [], fuel, el, el', h => by
    simp only [groupElemsLoop, Except.ok.injEq] at h
    subst h; simp
  | e :: rest, fuel, el, el', h => by
    match fuel with
    | 0 => simp [groupElemsLoop, outOfFuel] at h
    | n + 1 =>
      simp only [groupElemsLoop] at h
      split at h
      · simp at h
      · split at h
        · simp at h
        · rename_i el₁ hadd
          have := groupElemsLoop_children_length h
          rw [this, addChild_children hadd]
          simp
          omega

theorem groupsLoop_children_length {env : RandEnv} {g : Nat}
    {dts : List TypeGenerator} {els : List ElementGenerator} :
    ∀ {gs : List GroupGenerator} {fuel : Nat} {el el' : XMLElement},
      groupsLoop fuel env g gs el dts els = .ok el' →
        el'.children.length =
          el.children.length + (gs.map (fun grp => grp.elements.length)).sum
  | [], fuel, el, el', h => by
    simp only [groupsLoop, Except.ok.injEq] at h
    subst h; simp
  | grp :: rest, fuel, el, el', h => by
    match fuel with
    | 0 => simp [groupsLoop, outOfFuel] at h
    | n + 1 =>
      simp only [groupsLoop] at h
      split at h
      · simp at h
      · rename_i el₁ hg
        have h₁ := groupElemsLoop_children_length hg
        have h₂ := groupsLoop_children_length h
        rw [h₂, h₁]
        simp
        omega

/-- C4 (amended): on every successful emission, the tree builder emits
exactly one instance per child position — the emitted element gains exactly
one child for each direct element position and for each element position
inside each group, regardless of the positions' `min`/`max` cardinalities. -/
theorem c4_exactly_one_instance_per_position :
    ∀ (fuel : Nat) (env : RandEnv) (g : Nat) (tg : TypeGenerator)
      (el el' : XMLElement) (dts : List TypeGenerator)
      (els : List ElementGenerator),
      TypeGenerator.generate fuel env g tg el dts els = .ok el' →
        el'.children.length =
          el.children.length + tg.elements.length +
            (tg.groups.map (fun grp => grp.elements.length)).sum := by
  intro fuel env g tg el el' dts els h
  match fuel with
  | 0 => simp [TypeGenerator.generate, outOfFuel] at h
  | n + 1 =>
    simp only [TypeGenerator.generate] at h
    split at h
    · simp at h
    · rename_i el₁ hs
      have hel₁ : el₁.children = el.children := by
        split_ifs at hs <;>
          first
          | (simp only [Except.ok.injEq] at hs; subst hs; rfl)
          | simp at hs
          | (split at hs
             · simp at hs
             · rename_i v hv
               split at hs
               · rename_i el₀ hat
                 simp only [Except.ok.injEq] at hs
                 subst hs
                 exact addText_children hat
               · simp at hs)
      split at h
      · simp at h
      · rename_i el₂ he
        split at h
        · simp at h
        · rename_i el₃ hg
          have h₁ := elemsLoop_children_length he
          have h₂ := groupsLoop_children_length hg
          have h₃ := attrLoop_children h
          rw [h₃, h₂, h₁, hel₁]

/-- Witness for C4 (amended) at a concrete two-position type. -/
theorem c4_exactly_one_instance_per_position_witness :
    TypeGenerator.generate 10 envW 0 tgC4 (XMLElement.new "R") [] [] =
      .ok (XMLElement.mk "R" [] none [XMLElement.mk "x" [] (some "v") []]) ∧
    (XMLElement.mk "R" [] none
        [XMLElement.mk "x" [] (some "v") []]).children.length =
      (XMLElement.new "R").children.length + tgC4.elements.length +
        (tgC4.groups.map (fun grp => grp.elements.length)).sum :=
  ⟨rfl,
   c4_exactly_one_instance_per_position 10 envW 0 tgC4 (XMLElement.new "R")
     (XMLElement.mk "R" [] none [XMLElement.mk "x" [] (some "v") []]) [] []
     rfl⟩

/-- Counterexample for C4 as stated: the position `x` has `min = 2`, yet the
builder emits exactly one instance, so the emitted count is below the
position's minimum cardinality. -/
theorem c4_counterexample :
    TypeGenerator.generate 10 envW 0 tgC4 (XMLElement.new "R") [] [] =
      .ok (XMLElement.mk "R" [] none [XMLElement.mk "x" [] (some "v") []]) ∧
    egC4.min = 2 ∧
    (XMLElement.mk "R" [] none
        [XMLElement.mk "x" [] (some "v") []]).children.length = 1 ∧
    ¬ (egC4.min ≤ 1) :=
  ⟨rfl, rfl, rfl, by decide⟩

/-! ### Claim C9: simple-type collection -/

theorem get_restriction_content_eq {c : RestrictionContent} {v : String}
    (h : get_restriction_content c = some v) : v = facetTokenValue c := by
  rcases c with _ | _ | f
  · simp [get_restriction_content] at h
  · simp [get_restriction_content] at h
  · rcases f <;>
      simp_all [get_restriction_content, get_facet, get_facet_type,
        facetTokenValue]

theorem collectFacets_eq :
    ∀ {content : List RestrictionContent} {facets : List String},
      collectFacets content = some facets →
        facets = content.map facetTokenValue
  | [], facets, h => by
    simp only [collectFacets, Option.some.injEq] at h
    simp [← h]
  | c :: rest, facets, h => by
    simp only [collectFacets] at h
    split at h
    · simp at h
    · rename_i v hc
      split at h
      · simp at h
      · rename_i vs hr
        simp only [Option.some.injEq] at h
        subst h
        simp [List.map_cons, ← get_restriction_content_eq hc,
          collectFacets_eq hr]

theorem get_restriction_tokens {r : Restriction} {info : RestrictionInfo}
    (h : get_restriction r = some info) :
    info.name :: info.facets = restrictionTokens r := by
  simp only [get_restriction] at h
  split at h
  · simp at h
  · rename_i facets hm
    simp only [Option.some.injEq] at h
    subst h
    simp only [restrictionTokens, RestrictionInfo.new,
      collectFacets_eq hm]

theorem get_content_restriction_eq {c : SimpleBaseTypeContent}
    {info : RestrictionInfo} (h : get_content_restriction c = some info) :
    ∃ r, c = .RestrictionContent_ r ∧ get_restriction r = some info := by
  rcases c with _ | r | _ | _ <;> simp_all [get_content_restriction]

theorem collectRestrictions_eq :
    ∀ {content : List SimpleBaseTypeContent} {rs : List RestrictionInfo},
      collectRestrictions content = some rs →
        rs.flatMap (fun i => i.name :: i.facets) =
            content.flatMap contentTokens ∧
          (rs = [] ↔ content = []) ∧
          ∀ c ∈ content, ∃ r, c = .RestrictionContent_ r
  | [], rs, h => by
    simp only [collectRestrictions, Option.some.injEq] at h
    subst h
    simp
  | c :: rest, rs, h => by
    simp only [collectRestrictions] at h
    split at h
    · simp at h
    · rename_i info hc
      split at h
      · simp at h
      · rename_i infos hr
        simp only [Option.some.injEq] at h
        subst h
        obtain ⟨hflat, _, hall⟩ := collectRestrictions_eq hr
        obtain ⟨r, hcr, hgr⟩ := get_content_restriction_eq hc
        subst hcr
        refine ⟨?_, by simp, ?_⟩
        · simp only [List.flatMap_cons, hflat, contentTokens,
            ← get_restriction_tokens hgr]
        · intro c' hc'
          rcases hc' with _ | hc'
          · exact ⟨r, rfl⟩
          · exact hall c' (by assumption)

/-- C9: a top-level named simple type collects to a `TypeSpec` with empty
elements, groups and attributes whose `type_info` is the single token
`"string"` when there is no restriction content, and otherwise, for each
restriction in order, the restriction's base name followed by every facet
value in source order. -/
theorem c9_simple_type_collection :
    ∀ (s : SimpleBaseType) (tg : TypeGenerator),
      get_simple_type s = some tg →
        tg.elements = [] ∧ tg.groups = [] ∧ tg.attributes = [] ∧
        tg.name = s.name.getD "" ∧ tg.name ≠ "" ∧
        (∀ c ∈ s.content, ∃ r, c = .RestrictionContent_ r) ∧
        (s.content = [] → tg.type_info = ["string"]) ∧
        (s.content ≠ [] →
          tg.type_info = s.content.flatMap contentTokens) := by
  intro s tg h
  simp only [get_simple_type] at h
  split_ifs at h with hname hfin
  split at h
  · simp at h
  · rename_i rs hm
    obtain ⟨hflat, hiff, hall⟩ := collectRestrictions_eq hm
    split_ifs at h with hempty
    · simp only [Option.some.injEq] at h
      subst h
      have hc : s.content = [] := hiff.mp (List.isEmpty_iff.mp hempty)
      refine ⟨rfl, rfl, rfl, rfl, hname, hall, fun _ => rfl, fun hne => ?_⟩
      exact absurd hc hne
    · simp only [Option.some.injEq] at h
      subst h
      have hc : s.content ≠ [] := by
        intro hc
        exact hempty (by simp [List.isEmpty_iff, hiff.mpr hc])
      refine ⟨rfl, rfl, rfl, rfl, hname, hall, fun hceq => absurd hceq hc,
        fun _ => ?_⟩
      simpa [TypeGenerator.type_info] using hflat

/-- Witness for C9 at the simple type `code` restricting `string` with a
single pattern facet. -/
theorem c9_simple_type_collection_witness :
    get_simple_type sbtCode =
      some (TypeGenerator.mk "code" ["string", "[A-Z]"] [] [] [] 1 none) ∧
    (TypeGenerator.mk "code" ["string", "[A-Z]"] [] [] [] 1 none).type_info =
      sbtCode.content.flatMap contentTokens :=
  ⟨rfl,
   (c9_simple_type_collection sbtCode
     (TypeGenerator.mk "code" ["string", "[A-Z]"] [] [] [] 1 none)
     rfl).2.2.2.2.2.2.2 (by simp [sbtCode])⟩

/-! ### Claims C1 and C3: the root selector -/

theorem elemMem_iff {e : ElementGenerator} {l : List ElementGenerator} :
    elemMem e l = true ↔ ∃ d ∈ l, eqEG d e = true := by
  simp [elemMem, List.any_eq_true]

theorem get_field_struct_some {gens : List ElementGenerator} {f : String}
    {d : ElementGenerator} (h : get_field_struct gens f = some d) :
    d ∈ gens ∧ d.name = some f := by
  refine ⟨List.mem_of_find?_eq_some h, ?_⟩
  have hp := List.find?_some h
  rcases hd : d.name with _ | n
  · rw [hd] at hp; simp at hp
  · rw [hd] at hp
    simp only [decide_eq_true_eq] at hp
    rw [hp]

theorem get_field_struct_isSome {gens : List ElementGenerator} {n : String}
    {e : ElementGenerator} (he : e ∈ gens) (hn : e.name = some n) :
    ∃ d, get_field_struct gens n = some d := by
  rw [← Option.isSome_iff_exists]
  simp only [get_field_struct]
  rw [List.find?_isSome]
  exact ⟨e, he, by simp [hn]⟩

theorem mem_dependentElements {gens : List ElementGenerator}
    {fields : List String} {d : ElementGenerator} :
    d ∈ dependentElements gens fields ↔
      ∃ f ∈ fields, get_field_struct gens f = some d := by
  simp [dependentElements, List.mem_filterMap]

theorem mem_independentElements {gens dep : List ElementGenerator}
    {x : ElementGenerator} :
    x ∈ independentElements gens dep ↔
      x ∈ gens ∧ elemMem x dep = false := by
  simp [independentElements, List.mem_filter]

/-- C1 (amended): for elements with pairwise-distinct names, the root
selector marks an element as dependent exactly when its name appears in the
field set built from two sources — each element's `reference` and the
`get_name()` of elements directly inside inline content types and their
groups.  The `type_info` strings are collected into a separate list
(`allTypes`) that the selector never consults. -/
theorem c1_dependent_marking :
    ∀ (gens : List ElementGenerator) (fields : List String)
      (e : ElementGenerator),
      allFields gens = .ok fields →
      (∀ e₁ ∈ gens, ∀ e₂ ∈ gens,
        ElementGenerator.name e₁ = ElementGenerator.name e₂ → e₁ = e₂) →
      e ∈ gens →
      (elemMem e (dependentElements gens fields) = true ↔
        ∃ n, e.name = some n ∧ n ∈ fields) := by
  intro gens fields e _ hinj he
  constructor
  · intro h
    obtain ⟨d, hd, heq⟩ := elemMem_iff.mp h
    obtain ⟨f, hf, hgfs⟩ := mem_dependentElements.mp hd
    obtain ⟨_, hdname⟩ := get_field_struct_some hgfs
    exact ⟨f, by rw [← eqEG_name_eq heq, hdname], hf⟩
  · rintro ⟨n, hn, hmem⟩
    obtain ⟨d, hgfs⟩ := get_field_struct_isSome he hn
    obtain ⟨hdg, hdname⟩ := get_field_struct_some hgfs
    have hde : d = e := hinj d hdg e he (by rw [hdname, hn])
    subst hde
    exact elemMem_iff.mpr
      ⟨d, mem_dependentElements.mpr ⟨n, hmem, hgfs⟩, eqEG_refl d⟩

/-- Witness for C1 (amended): in `[egP, egQ]` the content child name `Q`
makes `egQ` dependent. -/
theorem c1_dependent_marking_witness :
    elemMem egQ (dependentElements [egP, egQ] ["Q"]) = true :=
  (c1_dependent_marking [egP, egQ] ["Q"] egQ rfl
    (by
      intro e₁ h₁ e₂ h₂ hnm
      simp only [List.mem_cons, List.mem_singleton, List.not_mem_nil,
        or_false] at h₁ h₂
      rcases h₁ with h₁ | h₁ <;> rcases h₂ with h₂ | h₂ <;>
        subst h₁ <;> subst h₂ <;> first | rfl | simp [egP, egQ,
          ElementGenerator.name] at hnm)
    (by simp)).mpr ⟨"Q", rfl, by simp⟩

/-- Counterexample for C1 as stated: `egA` has `type_info = "B"`, the name
of `egB`, so by the claim `egB` is dependent and `egA` is the unique root;
but the selector collects `type_info` into `allTypes` without using it, the
field set is empty, `egB` is not marked dependent, and the selector reports
multiple independent elements instead of returning `egA`. -/
theorem c1_counterexample :
    allTypes [egA, egB] = ["B"] ∧
    allFields [egA, egB] = .ok [] ∧
    egB.name = some "B" ∧
    elemMem egB (dependentElements [egA, egB] []) = false ∧
    find_root_element [egA, egB] =
      .error (.DataTypesFormatError
        "Multiple independent (root) elements found!") :=
  ⟨rfl, rfl, rfl, rfl, rfl⟩

/-- C3 (amended): the root selector fails with exactly `"No elements
found"` on an empty list, exactly `"No independent elements found"` when
every element is marked dependent, and exactly `"Multiple independent
(root) elements found!"` (with a trailing exclamation mark) when more than
one element is independent; otherwise it returns the single independent
element. -/
theorem c3_root_selector_outcomes :
    (find_root_element [] =
      .error (.DataTypesFormatError "No elements found")) ∧
    (∀ (gens : List ElementGenerator) (fields : List String),
      gens ≠ [] → allFields gens = .ok fields →
      independentElements gens (dependentElements gens fields) = [] →
        find_root_element gens =
          .error (.DataTypesFormatError "No independent elements found")) ∧
    (∀ (gens : List ElementGenerator) (fields : List String),
      gens ≠ [] → allFields gens = .ok fields →
      1 < (independentElements gens (dependentElements gens fields)).length →
        find_root_element gens =
          .error (.DataTypesFormatError
            "Multiple independent (root) elements found!")) ∧
    (∀ (gens : List ElementGenerator) (fields : List String)
        (g : ElementGenerator),
      gens ≠ [] → allFields gens = .ok fields →
      independentElements gens (dependentElements gens fields) = [g] →
        find_root_element gens = .ok g) := by
  refine ⟨rfl, ?_, ?_, ?_⟩
  · intro gens fields hne hf hindep
    simp [find_root_element, List.isEmpty_iff, hne, hf, hindep]
  · intro gens fields hne hf hlen
    have hnenil :
        independentElements gens (dependentElements gens fields) ≠ [] := by
      intro h
      rw [h] at hlen
      simp at hlen
    simp [find_root_element, List.isEmpty_iff, hne, hf, hnenil, hlen]
  · intro gens fields g hne hf hsingle
    have hg : g ∈ independentElements gens (dependentElements gens fields) :=
      by rw [hsingle]; simp
    obtain ⟨hggens, hgdep⟩ := mem_independentElements.mp hg
    have hex : ∃ x ∈ gens, (fun x => elemMem x
        (independentElements gens (dependentElements gens fields))) x =
          true := by
      refine ⟨g, hggens, ?_⟩
      rw [hsingle]
      simpa [elemMem] using eqEG_refl g
    obtain ⟨x, hfind⟩ := Option.isSome_iff_exists.mp
      (List.find?_isSome.mpr hex)
    have hpx := List.find?_some hfind
    have hxgens := List.mem_of_find?_eq_some hfind
    rw [hsingle] at hpx
    have hgx : eqEG g x = true := by simpa [elemMem] using hpx
    have hxindep :
        x ∈ independentElements gens (dependentElements gens fields) := by
      rw [mem_independentElements]
      refine ⟨hxgens, ?_⟩
      by_contra hxd
      rw [Bool.not_eq_false] at hxd
      obtain ⟨d, hd, hdx⟩ := elemMem_iff.mp hxd
      have hdg : eqEG d g = true := eqEG_trans hdx (eqEG_symm hgx)
      have : elemMem g (dependentElements gens fields) = true :=
        elemMem_iff.mpr ⟨d, hd, hdg⟩
      rw [this] at hgdep
      simp at hgdep
    have hxg : x = g := by
      rw [hsingle] at hxindep
      simpa using hxindep
    subst hxg
    rw [hsingle] at hfind
    simp [find_root_element, List.isEmpty_iff, hne, hf, hsingle, hfind]

/-- Witness for C3: a self-cycle yields `"No independent elements found"`,
two unrelated roots yield the exclamation-mark message, and a singleton list
returns its element. -/
theorem c3_root_selector_outcomes_witness :
    find_root_element [egR] =
      .error (.DataTypesFormatError "No independent elements found") ∧
    find_root_element [egC, egD] =
      .error (.DataTypesFormatError
        "Multiple independent (root) elements found!") ∧
    find_root_element [egQ] = .ok egQ :=
  ⟨c3_root_selector_outcomes.2.1 [egR] ["R"] (by simp) rfl rfl,
   c3_root_selector_outcomes.2.2.1 [egC, egD] [] (by simp) rfl
     (by decide),
   c3_root_selector_outcomes.2.2.2 [egQ] [] egQ (by simp) rfl rfl⟩

/-- Counterexample for C3 as stated: with two independent elements the
selector's message carries a trailing exclamation mark, so it is not
exactly `"Multiple independent (root) elements found"`. -/
theorem c3_counterexample :
    find_root_element [egC, egD] =
      .error (.DataTypesFormatError
        "Multiple independent (root) elements found!") ∧
    "Multiple independent (root) elements found!" ≠
      "Multiple independent (root) elements found" :=
  ⟨rfl, by decide⟩

end XmlGenerator
